import Mathlib

/-!
Shallow embedding of the SEO optimizer pipeline (src/optimizer.py) and
verification of its behavioral contract.

The program is a three-step pipeline (extract search terms via a
language-model API, web-search each term, rewrite the input text using the
collected results as context) executed on a worker thread that emits
progress / finished / error events.  HTTP interactions are modelled by an
environment supplying, for each request the code makes, either a response
(status plus the fields the code reads) or a raised network exception.
-/

namespace SEOOpt

/-! ### Python string primitives

`str.split('\n')`, `str.strip()` and `str.replace(' ', '+')` are embedded
as structurally recursive functions over the character list of the string,
so that the kernel can evaluate them on concrete inputs.  `pyStrip` strips
the ASCII whitespace characters (the inputs in this development are ASCII,
where Python's `str.strip()` agrees). -/

/-- Whitespace characters stripped by Python `str.strip()` (ASCII range). -/
def isPySpace (c : Char) : Bool :=
  c = ' ' || c = '\t' || c = '\n' || c = '\r' || c = '\x0b' || c = '\x0c'

/-- Python `str.strip()`: drop leading and trailing whitespace. -/
def pyStrip (s : String) : String :=
  String.mk (((s.data.dropWhile isPySpace).reverse.dropWhile isPySpace).reverse)

/-- Split a character list at every occurrence of `c` (Python `str.split(c)`
for a one-character separator). Always returns a non-empty list of pieces. -/
def splitOnChar (c : Char) : List Char → List (List Char)
  | [] => [[]]
  | x :: xs =>
    match splitOnChar c xs with
    | [] => [[x]]
    | l :: ls => if x = c then [] :: l :: ls else (x :: l) :: ls

/-- Python `content.split('\n')`. -/
def pySplitNL (s : String) : List String :=
  (splitOnChar '\n' s.data).map String.mk

/-- Python `term.replace(' ', '+')` acting character by character. -/
def plusForSpace (c : Char) : Char := if c = ' ' then '+' else c

/-- Python `term.replace(' ', '+')`. -/
def pyReplaceSpacePlus (s : String) : String :=
  String.mk (s.data.map plusForSpace)

/-! ### Data model -/

/-- Class `SearchResult` (src/optimizer.py:19-23): a `(title, description, url)`
triple collected during the search step. -/
structure SearchResult where
  title : String
  description : String
  url : String
deriving Repr, DecidableEq

/-- A response of the language-model endpoint as the code reads it
(src/optimizer.py:79-88, 168-175): the HTTP status, the text
`result['content'][0]['text']` extracted from the JSON body on success,
and the raw body `response.text` used in the error message otherwise. -/
structure ClaudeResponse where
  status : Nat
  contentText : String
  body : String
deriving Repr, DecidableEq

/-- One `div` of class `result` in the search-results HTML
(src/optimizer.py:108-119): optionally an anchor of class `result__a`
(its text and `href`), and optionally an anchor of class `result__snippet`
(its text). -/
structure ResultDiv where
  titleElem : Option (String × String)
  snippetElem : Option String
deriving Repr, DecidableEq

/-- A response of the search endpoint: HTTP status and the parsed list of
`div.result` containers of the HTML body, in page order. -/
structure SearchPage where
  status : Nat
  divs : List ResultDiv
deriving Repr, DecidableEq

/-- Outcome of one HTTP request: the library raised an exception (network
failure), or a response arrived. -/
inductive HttpOutcome (α : Type) where
  | raised (msg : String)
  | response (r : α)
deriving Repr, DecidableEq

/-- The environment of one run: the outcome of the extract request, of the
search request for each term, and of the rewrite request. -/
structure Env where
  extractOutcome : HttpOutcome ClaudeResponse
  searchOutcome : String → HttpOutcome SearchPage
  optimizeOutcome : HttpOutcome ClaudeResponse

/-- Events emitted by the worker thread: `progress_updated`, `finished`
and `error_occurred` signals (src/optimizer.py:26-28). -/
inductive Event where
  | progress (msg : String)
  | finished (text : String)
  | error (msg : String)
deriving Repr, DecidableEq

/-! ### Step 1: extract_search_terms (src/optimizer.py:55-88) -/

/-- The term-parsing of `extract_search_terms` (src/optimizer.py:85-86):
`[term.strip() for term in content.split('\n') if term.strip()][:10]`. -/
def parseSearchTerms (content : String) : List String :=
  ((((pySplitNL content).map pyStrip).filter (fun t => !t.isEmpty)).take 10)

/-- Method `extract_search_terms` applied to the response of the extract request
(src/optimizer.py:82-88): on status 200 parse the terms, otherwise raise
`Exception(f"Claude API error: {status} - {body}")`. -/
def extract_search_terms (resp : ClaudeResponse) : Except String (List String) :=
  if resp.status = 200 then
    Except.ok (parseSearchTerms resp.contentText)
  else
    Except.error ("Claude API error: " ++ toString resp.status ++ " - " ++ resp.body)

/-! ### Step 2: perform_searches (src/optimizer.py:90-123) -/

/-- The search URL (src/optimizer.py:101):
`f"https://duckduckgo.com/html/?q={term.replace(' ', '+')}"`. -/
def searchUrl (term : String) : String :=
  "https://duckduckgo.com/html/?q=" ++ pyReplaceSpacePlus term

/-- The HTTP request fields the code sets for one search
(src/optimizer.py:102): `requests.get(search_url, headers=headers, timeout=10)`. -/
structure HttpRequest where
  method : String
  url : String
  timeoutSeconds : Option Nat
deriving Repr, DecidableEq

/-- The search request issued for one term (src/optimizer.py:101-102). -/
def searchRequest (term : String) : HttpRequest :=
  { method := "GET", url := searchUrl term, timeoutSeconds := some 10 }

/-- The result extracted from one `div.result` container
(src/optimizer.py:111-119): a `SearchResult` when both the `result__a`
anchor and the `result__snippet` anchor are present (`href` defaulting to
the empty string is resolved when the div is built), nothing otherwise. -/
def divResult (d : ResultDiv) : Option SearchResult :=
  match d.titleElem, d.snippetElem with
  | some (title, url), some description =>
      some { title := title, description := description, url := url }
  | _, _ => none

/-- Results extracted from a success page (src/optimizer.py:108-119):
`soup.find_all('div', class_='result')[:5]`, keeping the divs that carry
both markers. -/
def parseResults (divs : List ResultDiv) : List SearchResult :=
  (divs.take 5).filterMap divResult

/-- The body of the per-term loop of `perform_searches`
(src/optimizer.py:96-123): emit `"Searching for: {term}"`, then
  * if the request raises, the `except` branch emits
    `"Search error for '{term}': {msg}"` and contributes no results;
  * if the response status is 200, contribute `parseResults`;
  * otherwise (non-200, no exception) contribute nothing silently.
Returns the events emitted for the term and the results it appends. -/
def searchTermStep (env : Env) (term : String) : List Event × List SearchResult :=
  let searching := Event.progress ("Searching for: " ++ term)
  match env.searchOutcome term with
  | HttpOutcome.raised msg =>
      ([searching, Event.progress ("Search error for \x27" ++ term ++ "\x27: " ++ msg)], [])
  | HttpOutcome.response page =>
      if page.status = 200 then ([searching], parseResults page.divs)
      else ([searching], [])

/-- Method `perform_searches` (src/optimizer.py:90-123): the sequential loop over
the terms, concatenating emitted events and appended results in order. -/
def perform_searches (env : Env) : List String → List Event × List SearchResult
  | [] => ([], [])
  | term :: rest =>
    let step := searchTermStep env term
    let tail := perform_searches env rest
    (step.1 ++ tail.1, step.2 ++ tail.2)

/-! ### Step 3: seo_optimize_text (src/optimizer.py:125-175) -/

/-- The context block of `seo_optimize_text` (src/optimizer.py:134-137):
`"\n".join(f"Title: {r.title}\nDescription: {r.description}\n" for r in
search_results[:20])`. -/
def search_context (results : List SearchResult) : String :=
  String.intercalate "\n" ((results.take 20).map fun r =>
    "Title: " ++ r.title ++ "\nDescription: " ++ r.description ++ "\n")

/-- Method `seo_optimize_text` applied to the response of the rewrite request
(src/optimizer.py:171-175): on status 200 return
`result['content'][0]['text']` verbatim, otherwise raise
`Exception(f"Claude API error: {status} - {body}")`. -/
def seo_optimize_text (resp : ClaudeResponse) : Except String String :=
  if resp.status = 200 then Except.ok resp.contentText
  else Except.error ("Claude API error: " ++ toString resp.status ++ " - " ++ resp.body)

/-! ### run (src/optimizer.py:36-53) -/

/-- Observable record of one run: every signal emitted in order, the terms
whose search request was issued, whether the rewrite request was issued,
the final `self.search_results`, and the context block built for the
rewrite prompt when the rewrite step ran. -/
structure RunResult where
  events : List Event
  searchCalls : List String
  optimizeCalled : Bool
  collectedResults : List SearchResult
  contextUsed : Option String
deriving Repr, DecidableEq

/-- A run aborted by an exception in the extract step: the `except` branch
of `run` (src/optimizer.py:52-53) emits `error_occurred` and the thread
ends; no search or rewrite request was made. -/
def extractFailedRun (msg : String) : RunResult :=
  { events := [Event.progress "Extracting search terms using Claude...", Event.error msg],
    searchCalls := [], optimizeCalled := false, collectedResults := [], contextUsed := none }

/-- The terminal event of a run that reached the rewrite step
(src/optimizer.py:48-53): `finished` with the raw response text on status
200, `error_occurred` when the request raised or the status was not 200. -/
def rewriteTerminal (env : Env) : Event :=
  match env.optimizeOutcome with
  | HttpOutcome.raised msg => Event.error msg
  | HttpOutcome.response oresp =>
    match seo_optimize_text oresp with
    | Except.ok text => Event.finished text
    | Except.error msg => Event.error msg

/-- Steps 2 and 3 of `run` (src/optimizer.py:42-53) once extraction
succeeded with `terms`: search every term, build the rewrite context, issue
the rewrite request, and emit `finished` on success or `error_occurred` on
an exception. -/
def runSearchPhase (env : Env) (terms : List String) : RunResult :=
  let searched := perform_searches env terms
  let baseEvents :=
    [Event.progress "Extracting search terms using Claude...",
     Event.progress "Performing Google searches..."]
    ++ searched.1
    ++ [Event.progress "Optimizing content with Claude..."]
  { events := baseEvents ++ [rewriteTerminal env],
    searchCalls := terms,
    optimizeCalled := true,
    collectedResults := searched.2,
    contextUsed := some (search_context searched.2) }

/-- Method `run` (src/optimizer.py:36-53). -/
def run (env : Env) : RunResult :=
  match env.extractOutcome with
  | HttpOutcome.raised msg => extractFailedRun msg
  | HttpOutcome.response resp =>
    match extract_search_terms resp with
    | Except.error msg => extractFailedRun msg
    | Except.ok terms => runSearchPhase env terms

/-! ### start_processing (src/optimizer.py:557-580) -/

/-- Method `start_processing`: strip the input text and the API key; if either is
empty a warning box is shown and the method returns before the worker
thread is constructed or started.  Returns the `(text, api_key)` arguments
of the started worker, or `none` when the run is rejected. -/
def start_processing (inputText apiKey : String) : Option (String × String) :=
  let text := pyStrip inputText
  let key := pyStrip apiKey
  if text.isEmpty then none
  else if key.isEmpty then none
  else some (text, key)

/-! ### URL-encoding per the spec's words

The spec describes the search query as "URL-encoded (spaces → `+`)".
The following definitions formalise application/x-www-form-urlencoded
encoding of an ASCII query string, to compare with what the code builds
(`searchUrl`, which only replaces spaces). -/

/-- Characters a form-urlencoding leaves unchanged. -/
def isUnreservedChar (c : Char) : Bool :=
  c.isAlpha || c.isDigit || c = '-' || c = '_' || c = '.' || c = '~'

/-- Upper-case hexadecimal digit for `n < 16`. -/
def hexDigitChar (n : Nat) : Char :=
  if n < 10 then Char.ofNat (48 + n) else Char.ofNat (55 + n)

/-- Form-urlencoding of one ASCII character: space becomes `+`, unreserved
characters stay, every other character is percent-encoded. -/
def percentEncodeChar (c : Char) : List Char :=
  if c = ' ' then ['+']
  else if isUnreservedChar c then [c]
  else ['%', hexDigitChar (c.toNat / 16), hexDigitChar (c.toNat % 16)]

/-- URL-encoding of an ASCII query string as the spec's words describe it
(the standard form encoding of a query parameter). -/
def formUrlEncode (s : String) : String :=
  String.mk (s.data.flatMap percentEncodeChar)

/-! ### Trace shape -/

/-- Whether an event is a progress notification. -/
def isProgress : Event → Bool
  | Event.progress _ => true
  | _ => false

/-- Whether an event is terminal: a success result or a failure. -/
def isTerminal : Event → Bool
  | Event.finished _ => true
  | Event.error _ => true
  | Event.progress _ => false

/-- A trace is well formed when it consists of progress events followed by
exactly one terminal event. -/
def wellFormedTrace (evs : List Event) : Bool :=
  match evs.getLast? with
  | some last => evs.dropLast.all isProgress && isTerminal last
  | none => false

/-! ### Concrete environments used to instantiate the theorems -/

/-- An extract request answered with status 404. -/
def envC2 : Env :=
  { extractOutcome := HttpOutcome.response { status := 404, contentText := "", body := "Not Found" },
    searchOutcome := fun _ => HttpOutcome.raised "never reached",
    optimizeOutcome := HttpOutcome.raised "never reached" }

/-- Two extracted terms; the search for "alpha" raises, "beta" succeeds. -/
def envC3 : Env :=
  { extractOutcome := HttpOutcome.response { status := 200, contentText := "alpha\nbeta", body := "" },
    searchOutcome := fun t =>
      if t = "alpha" then HttpOutcome.raised "net down"
      else HttpOutcome.response
        { status := 200, divs := [{ titleElem := some ("T", "u"), snippetElem := some "D" }] },
    optimizeOutcome := HttpOutcome.response { status := 200, contentText := "optimized", body := "" } }

/-- Every search raises, the rewrite request succeeds. -/
def envC5 : Env :=
  { extractOutcome := HttpOutcome.response { status := 200, contentText := "a\nb", body := "" },
    searchOutcome := fun _ => HttpOutcome.raised "net down",
    optimizeOutcome := HttpOutcome.response { status := 200, contentText := "rewritten", body := "" } }

/-- A successful search page with one complete and one incomplete container. -/
def envC7 : Env :=
  { extractOutcome := HttpOutcome.raised "unused",
    searchOutcome := fun _ => HttpOutcome.response
      { status := 200,
        divs := [{ titleElem := some ("T1", "u1"), snippetElem := some "D1" },
                 { titleElem := none, snippetElem := some "D2" }] },
    optimizeOutcome := HttpOutcome.raised "unused" }

/-- A search request answered with status 500 (no exception raised). -/
def envC10 : Env :=
  { extractOutcome := HttpOutcome.raised "unused",
    searchOutcome := fun _ => HttpOutcome.response
      { status := 500, divs := [{ titleElem := some ("T", "u"), snippetElem := some "D" }] },
    optimizeOutcome := HttpOutcome.raised "unused" }

/-! ## Helper lemmas -/

theorem searchTermStep_all_progress (env : Env) (t : String) :
    ((searchTermStep env t).1).all isProgress = true := by
  unfold searchTermStep
  cases env.searchOutcome t with
  | raised msg => simp [isProgress]
  | response page =>
    by_cases h : page.status = 200 <;> simp [h, isProgress]

theorem perform_searches_all_progress (env : Env) (terms : List String) :
    ((perform_searches env terms).1).all isProgress = true := by
  induction terms with
  | nil => rfl
  | cons t rest ih =>
    simp [perform_searches, List.all_append, ih, searchTermStep_all_progress env t]

theorem perform_searches_fst_eq (env : Env) (terms : List String) :
    (perform_searches env terms).1
      = (terms.map (fun t => (searchTermStep env t).1)).flatten := by
  induction terms with
  | nil => rfl
  | cons t rest ih => simp [perform_searches, ih]

theorem perform_searches_snd_eq (env : Env) (terms : List String) :
    (perform_searches env terms).2
      = (terms.map (fun t => (searchTermStep env t).2)).flatten := by
  induction terms with
  | nil => rfl
  | cons t rest ih => simp [perform_searches, ih]

theorem mem_perform_searches_fst {env : Env} {terms : List String} {t : String}
    {e : Event} (ht : t ∈ terms) (he : e ∈ (searchTermStep env t).1) :
    e ∈ (perform_searches env terms).1 := by
  rw [perform_searches_fst_eq]
  exact List.mem_flatten.mpr ⟨_, List.mem_map_of_mem _ ht, he⟩

theorem wellFormedTrace_concat (evs : List Event) (t : Event)
    (h1 : evs.all isProgress = true) (h2 : isTerminal t = true) :
    wellFormedTrace (evs ++ [t]) = true := by
  unfold wellFormedTrace
  rw [List.getLast?_concat, List.dropLast_concat]
  simp [h1, h2]

theorem run_extract_ok {env : Env} {resp : ClaudeResponse}
    (hresp : env.extractOutcome = HttpOutcome.response resp)
    (hstatus : resp.status = 200) :
    run env = runSearchPhase env (parseSearchTerms resp.contentText) := by
  unfold run
  rw [hresp]
  simp [extract_search_terms, hstatus]

theorem run_extract_err {env : Env} {resp : ClaudeResponse}
    (hresp : env.extractOutcome = HttpOutcome.response resp)
    (hstatus : resp.status ≠ 200) :
    run env = extractFailedRun
      ("Claude API error: " ++ toString resp.status ++ " - " ++ resp.body) := by
  unfold run
  rw [hresp]
  simp [extract_search_terms, hstatus]

theorem runSearchPhase_events (env : Env) (terms : List String) :
    (runSearchPhase env terms).events
      = ([Event.progress "Extracting search terms using Claude...",
          Event.progress "Performing Google searches..."]
         ++ (perform_searches env terms).1
         ++ [Event.progress "Optimizing content with Claude..."])
        ++ [rewriteTerminal env] := rfl

theorem runSearchPhase_collected (env : Env) (terms : List String) :
    (runSearchPhase env terms).collectedResults = (perform_searches env terms).2 := rfl

theorem runSearchPhase_contextUsed (env : Env) (terms : List String) :
    (runSearchPhase env terms).contextUsed
      = some (search_context (perform_searches env terms).2) := rfl

theorem rewriteTerminal_ok {env : Env} {oresp : ClaudeResponse}
    (hopt : env.optimizeOutcome = HttpOutcome.response oresp)
    (hostatus : oresp.status = 200) :
    rewriteTerminal env = Event.finished oresp.contentText := by
  unfold rewriteTerminal
  rw [hopt]
  simp [seo_optimize_text, hostatus]

theorem mem_runSearchPhase_events {env : Env} {terms : List String} {e : Event}
    (he : e ∈ (perform_searches env terms).1) :
    e ∈ (runSearchPhase env terms).events := by
  rw [runSearchPhase_events]
  simp [List.mem_append, he]

theorem data_append_eq (a b : String) : (a ++ b).data = a.data ++ b.data := rfl

theorem encode_length_ge (l : List Char) :
    l.length ≤ (l.flatMap percentEncodeChar).length := by
  induction l with
  | nil => simp
  | cons c cs ih =>
    rw [List.flatMap_cons, List.length_append, List.length_cons]
    have hc : 1 ≤ (percentEncodeChar c).length := by
      unfold percentEncodeChar
      by_cases h1 : c = ' '
      · simp [h1]
      · by_cases h2 : isUnreservedChar c <;> simp [h1, h2]
    omega

theorem encode_of_all_good (l : List Char)
    (h : ∀ c ∈ l, (isUnreservedChar c || c = ' ') = true) :
    l.map plusForSpace = l.flatMap percentEncodeChar := by
  induction l with
  | nil => rfl
  | cons c cs ih =>
    have hc := h c (List.mem_cons_self c cs)
    have hcs := ih (fun x hx => h x (List.mem_cons_of_mem c hx))
    by_cases hsp : c = ' '
    · simp [plusForSpace, percentEncodeChar, hsp, hcs]
    · have hunres : isUnreservedChar c = true := by
        rcases Bool.or_eq_true_iff.mp hc with h1 | h1
        · exact h1
        · exact absurd (of_decide_eq_true h1) hsp
      simp [plusForSpace, percentEncodeChar, hsp, hunres, hcs]

theorem all_good_of_encode_len (l : List Char)
    (hlen : l.length = (l.flatMap percentEncodeChar).length) :
    l.all (fun c => isUnreservedChar c || c = ' ') = true := by
  induction l with
  | nil => rfl
  | cons c cs ih =>
    rw [List.flatMap_cons, List.length_append, List.length_cons] at hlen
    have hge := encode_length_ge cs
    by_cases hgood : (isUnreservedChar c || c = ' ') = true
    · rw [List.all_cons, hgood, Bool.true_and]
      apply ih
      have h1 : (percentEncodeChar c).length = 1 := by
        rcases Bool.or_eq_true_iff.mp hgood with h | h
        · have hns : ¬(c = ' ') := by
            intro hsp
            rw [hsp] at h
            exact absurd h (by decide)
          simp [percentEncodeChar, hns, h]
        · simp [percentEncodeChar, of_decide_eq_true h]
      omega
    · exfalso
      have hns : ¬(c = ' ') := fun hsp => hgood (by simp [hsp])
      have hnu : ¬(isUnreservedChar c = true) := fun hu => hgood (by simp [hu])
      have h3 : (percentEncodeChar c).length = 3 := by
        simp [percentEncodeChar, hns, hnu]
      omega

theorem map_plus_eq_encode_iff (l : List Char) :
    l.map plusForSpace = l.flatMap percentEncodeChar
      ↔ l.all (fun c => isUnreservedChar c || c = ' ') = true := by
  constructor
  · intro h
    have hlen : l.length = (l.flatMap percentEncodeChar).length := by
      rw [← h, List.length_map]
    exact all_good_of_encode_len l hlen
  · intro h
    rw [List.all_eq_true] at h
    exact encode_of_all_good l h

/-! ## Claims -/

/-- C1: the parsed search-term list is the split/trim/discard-empty/take-10
pipeline applied to the response text, hence it always has at most 10
elements, each non-empty; and the response
"organic coffee\ncoffee beans\nbuy coffee online" parses to exactly the 3
expected terms. -/
theorem C1_parse_search_terms :
    (∀ c : String,
        parseSearchTerms c
          = ((((pySplitNL c).map pyStrip).filter (fun t => !t.isEmpty)).take 10)
        ∧ (parseSearchTerms c).length ≤ 10
        ∧ (parseSearchTerms c).all (fun t => !t.isEmpty) = true)
    ∧ parseSearchTerms "organic coffee\ncoffee beans\nbuy coffee online"
        = ["organic coffee", "coffee beans", "buy coffee online"] := by
  refine ⟨fun c => ⟨rfl, ?_, ?_⟩, by decide⟩
  · exact List.length_take_le 10 _
  · rw [List.all_eq_true]
    intro t ht
    have ht' : t ∈ (((pySplitNL c).map pyStrip).filter (fun s => !s.isEmpty)).take 10 := ht
    exact (List.mem_filter.mp (List.take_subset 10 _ ht')).2

/-- C2: when the extract request is answered with a non-success status, the
run emits the initial progress event and then a single error carrying the
status code and response body, and neither a search request nor the rewrite
request is issued. -/
theorem C2_extract_failure_aborts (env : Env) (resp : ClaudeResponse)
    (hresp : env.extractOutcome = HttpOutcome.response resp)
    (hstatus : resp.status ≠ 200) :
    (run env).events
      = [Event.progress "Extracting search terms using Claude...",
         Event.error ("Claude API error: " ++ toString resp.status ++ " - " ++ resp.body)]
    ∧ (run env).searchCalls = []
    ∧ (run env).optimizeCalled = false := by
  rw [run_extract_err hresp hstatus]
  exact ⟨rfl, rfl, rfl⟩

/-- Witness for C2 at a concrete 404 response. -/
theorem C2_extract_failure_aborts_witness :
    (run envC2).events
      = [Event.progress "Extracting search terms using Claude...",
         Event.error "Claude API error: 404 - Not Found"]
    ∧ (run envC2).searchCalls = []
    ∧ (run envC2).optimizeCalled = false :=
  C2_extract_failure_aborts envC2 _ rfl (by decide)

/-- C3: when the search for one extracted term raises while the run's
extraction succeeded, the failure is reported as a progress notification,
the rewrite step is still reached, the collected results are exactly the
in-order concatenation of every term's own contribution, and the failing
term contributes nothing. -/
theorem C3_search_failure_nonfatal (env : Env) (resp : ClaudeResponse)
    (hresp : env.extractOutcome = HttpOutcome.response resp)
    (hstatus : resp.status = 200)
    (t msg : String) (ht : t ∈ parseSearchTerms resp.contentText)
    (hraised : env.searchOutcome t = HttpOutcome.raised msg) :
    (run env).optimizeCalled = true
    ∧ Event.progress ("Search error for \x27" ++ t ++ "\x27: " ++ msg) ∈ (run env).events
    ∧ (run env).collectedResults
        = ((parseSearchTerms resp.contentText).map
            (fun u => (searchTermStep env u).2)).flatten
    ∧ (searchTermStep env t).2 = [] := by
  have hstep : searchTermStep env t
      = ([Event.progress ("Searching for: " ++ t),
          Event.progress ("Search error for \x27" ++ t ++ "\x27: " ++ msg)], []) := by
    unfold searchTermStep
    rw [hraised]
  rw [run_extract_ok hresp hstatus]
  refine ⟨rfl, ?_, ?_, ?_⟩
  · exact mem_runSearchPhase_events (mem_perform_searches_fst ht (by rw [hstep]; simp))
  · rw [runSearchPhase_collected]
    exact perform_searches_snd_eq env _
  · rw [hstep]

/-- Witness for C3: in `envC3` the search for "alpha" raises while "beta"
succeeds, yet the run reaches the rewrite step with beta's results. -/
theorem C3_search_failure_nonfatal_witness :
    (run envC3).optimizeCalled = true
    ∧ Event.progress "Search error for \x27alpha\x27: net down" ∈ (run envC3).events
    ∧ (run envC3).collectedResults
        = ((parseSearchTerms "alpha\nbeta").map
            (fun u => (searchTermStep envC3 u).2)).flatten
    ∧ (searchTermStep envC3 "alpha").2 = [] :=
  C3_search_failure_nonfatal envC3 _ rfl (by decide) "alpha" "net down"
    (by decide) (by decide)

/-- C4: the rewrite context block depends only on the first 20 collected
results, and equals the newline-joined title/description summaries of those
first 20 entries in order. -/
theorem C4_context_first_twenty :
    (∀ results : List SearchResult,
        search_context results = search_context (results.take 20))
    ∧ (∀ results : List SearchResult,
        search_context results
          = String.intercalate "\n" ((results.take 20).map fun r =>
              "Title: " ++ r.title ++ "\nDescription: " ++ r.description ++ "\n")) := by
  refine ⟨fun results => ?_, fun results => rfl⟩
  simp [search_context, List.take_take]

/-- C5: when zero search results were collected across all terms and the
rewrite request succeeds, the rewrite step still runs with an empty context
block and the run finishes with the model's raw response text verbatim. -/
theorem C5_zero_results_rewrite (env : Env) (resp oresp : ClaudeResponse)
    (hresp : env.extractOutcome = HttpOutcome.response resp)
    (hstatus : resp.status = 200)
    (hopt : env.optimizeOutcome = HttpOutcome.response oresp)
    (hostatus : oresp.status = 200)
    (hzero : (run env).collectedResults = []) :
    (run env).optimizeCalled = true
    ∧ (run env).contextUsed = some ""
    ∧ (run env).events.getLast? = some (Event.finished oresp.contentText) := by
  rw [run_extract_ok hresp hstatus] at hzero ⊢
  rw [runSearchPhase_collected] at hzero
  refine ⟨rfl, ?_, ?_⟩
  · rw [runSearchPhase_contextUsed, hzero]
    rfl
  · rw [runSearchPhase_events, List.getLast?_concat, rewriteTerminal_ok hopt hostatus]

/-- Witness for C5: in `envC5` every search raises, so nothing is
collected, and the run still finishes with the rewrite response. -/
theorem C5_zero_results_rewrite_witness :
    (run envC5).optimizeCalled = true
    ∧ (run envC5).contextUsed = some ""
    ∧ (run envC5).events.getLast? = some (Event.finished "rewritten") :=
  C5_zero_results_rewrite envC5 _ _ rfl (by decide) rfl (by decide) (by decide)

/-- C6: a whitespace-only (hence empty after stripping) input text or an
empty credential makes `start_processing` return before the worker thread
is created: the pipeline runner is never started and no request is made. -/
theorem C6_validation_rejects (inputText apiKey : String)
    (h : (pyStrip inputText).isEmpty = true ∨ (pyStrip apiKey).isEmpty = true) :
    start_processing inputText apiKey = none := by
  unfold start_processing
  rcases h with h | h
  · simp [h]
  · by_cases ht : (pyStrip inputText).isEmpty <;> simp [ht, h]

/-- Witness for C6 on a whitespace-only input text. -/
theorem C6_validation_rejects_witness :
    start_processing " \n  " "sk-ant-key" = none :=
  C6_validation_rejects " \n  " "sk-ant-key" (Or.inl (by decide))

/-- C7: per successful search page, at most 5 results are extracted, each
coming from one of the first 5 containers that holds both markers; a
container missing either marker contributes nothing, and an empty parse
contributes no results (the step returns normally). -/
theorem C7_result_extraction :
    (∀ divs : List ResultDiv, (parseResults divs).length ≤ 5)
    ∧ (∀ d : ResultDiv,
        d.titleElem = none ∨ d.snippetElem = none → divResult d = none)
    ∧ (∀ divs : List ResultDiv, ∀ r ∈ parseResults divs,
        ∃ d ∈ divs, divResult d = some r)
    ∧ (∀ env : Env, ∀ term : String, ∀ page : SearchPage,
        env.searchOutcome term = HttpOutcome.response page → page.status = 200 →
        (searchTermStep env term).2 = parseResults page.divs)
    ∧ parseResults [] = [] := by
  refine ⟨fun divs => ?_, fun d hd => ?_, fun divs r hr => ?_,
    fun env term page hresp hstatus => ?_, rfl⟩
  · exact le_trans (List.length_filterMap_le _ _) (List.length_take_le 5 _)
  · rcases d with ⟨tl, sn⟩
    rcases hd with h | h <;> simp_all [divResult]
  · have hr' : r ∈ (divs.take 5).filterMap divResult := hr
    rcases List.mem_filterMap.mp hr' with ⟨d, hd, hres⟩
    exact ⟨d, List.take_subset 5 _ hd, hres⟩
  · unfold searchTermStep
    rw [hresp]
    simp [hstatus]

/-- Witness for C7: on `envC7`'s page the complete container yields its
triple and the container missing the title anchor is dropped. -/
theorem C7_result_extraction_witness :
    (searchTermStep envC7 "coffee").2
      = parseResults [{ titleElem := some ("T1", "u1"), snippetElem := some "D1" },
                      { titleElem := none, snippetElem := some "D2" }]
    ∧ divResult { titleElem := none, snippetElem := some "D2" } = none :=
  ⟨(C7_result_extraction.2.2.2.1 envC7 "coffee" _ rfl (by decide)),
   C7_result_extraction.2.1 _ (Or.inl rfl)⟩

/-- C8: every run's event trace consists of zero or more progress events
followed by exactly one terminal event (a success or a failure), with
nothing after it. -/
theorem C8_trace_shape (env : Env) : wellFormedTrace (run env).events = true := by
  cases hext : env.extractOutcome with
  | raised msg =>
    have hrun : run env = extractFailedRun msg := by
      unfold run
      rw [hext]
    rw [hrun]
    rfl
  | response resp =>
    by_cases hstatus : resp.status = 200
    · rw [run_extract_ok hext hstatus]
      unfold runSearchPhase
      apply wellFormedTrace_concat
      · simp [List.all_append, isProgress, perform_searches_all_progress]
      · unfold rewriteTerminal
        cases env.optimizeOutcome with
        | raised msg => rfl
        | response oresp =>
          unfold seo_optimize_text
          by_cases h : oresp.status = 200 <;> simp [h, isTerminal]
    · rw [run_extract_err hext hstatus]
      rfl

/-- C9 counterexample: for the term "a&b" the code embeds the raw "a&b"
in the URL, whereas URL-encoding the term yields "a%26b"; the claim that
the term is URL-encoded fails at this input. -/
theorem C9_counterexample_not_encoded :
    (searchRequest "a&b").url ≠ "https://duckduckgo.com/html/?q=" ++ formUrlEncode "a&b"
    ∧ (searchRequest "a&b").url = "https://duckduckgo.com/html/?q=a&b"
    ∧ formUrlEncode "a&b" = "a%26b" := by
  refine ⟨?_, by decide, by decide⟩
  decide

/-- C9 (amended): for every search term, the request is a GET to the https
search-results HTML page whose URL appends to the fixed query prefix the
term transformed character by character — each space becomes `+`, every
other character is kept unchanged, so no other URL-encoding is applied —
and the URL equals the prefix followed by the URL-encoded term exactly
when every character of the term is unreserved or a space. -/
theorem C9_search_request_shape (term : String) :
    (searchRequest term).method = "GET"
    ∧ ((searchRequest term).url).data
        = ("https://duckduckgo.com/html/?q=".data
           ++ term.data.map (fun c => if c = ' ' then '+' else c))
    ∧ ((searchRequest term).url = "https://duckduckgo.com/html/?q=" ++ formUrlEncode term
        ↔ term.data.all (fun c => isUnreservedChar c || c = ' ') = true) := by
  refine ⟨rfl, ?_, ?_⟩
  · show ("https://duckduckgo.com/html/?q=" ++ pyReplaceSpacePlus term).data = _
    rw [data_append_eq]
    rfl
  · show ("https://duckduckgo.com/html/?q=" ++ pyReplaceSpacePlus term
        = "https://duckduckgo.com/html/?q=" ++ formUrlEncode term) ↔ _
    rw [← map_plus_eq_encode_iff]
    constructor
    · intro h
      have hd := congrArg String.data h
      rw [data_append_eq, data_append_eq] at hd
      exact List.append_cancel_left hd
    · intro h
      unfold pyReplaceSpacePlus formUrlEncode
      rw [h]

/-- C10: a search answered with a non-success status (no exception) makes
the term contribute zero results and emit only the pre-query "Searching
for:" progress event — no error and no notification about the failure —
and the loop proceeds with the remaining terms unchanged. -/
theorem C10_non_success_search_silent (env : Env) (term : String) (page : SearchPage)
    (hresp : env.searchOutcome term = HttpOutcome.response page)
    (hstatus : page.status ≠ 200) :
    searchTermStep env term = ([Event.progress ("Searching for: " ++ term)], [])
    ∧ ∀ rest : List String,
        perform_searches env (term :: rest)
          = (Event.progress ("Searching for: " ++ term) :: (perform_searches env rest).1,
             (perform_searches env rest).2) := by
  have hstep : searchTermStep env term
      = ([Event.progress ("Searching for: " ++ term)], []) := by
    unfold searchTermStep
    rw [hresp]
    simp [hstatus]
  refine ⟨hstep, fun rest => ?_⟩
  show ((searchTermStep env term).1 ++ (perform_searches env rest).1,
        (searchTermStep env term).2 ++ (perform_searches env rest).2) = _
  rw [hstep]
  simp

/-- Witness for C10 on a 500-status search page. -/
theorem C10_non_success_search_silent_witness :
    searchTermStep envC10 "coffee" = ([Event.progress "Searching for: coffee"], [])
    ∧ ∀ rest : List String,
        perform_searches envC10 ("coffee" :: rest)
          = (Event.progress "Searching for: coffee" :: (perform_searches envC10 rest).1,
             (perform_searches envC10 rest).2) :=
  C10_non_success_search_silent envC10 "coffee" _ rfl (by decide)

end SEOOpt
